import Mathlib

/-!
Verification of the clob-rs order-authentication subsystem.

This file gives a shallow embedding of the order-authentication core of the
`clob-rs` client (rounding policy, contract registry, EIP-712 style order and
auth-challenge hashing, HMAC request signing, order construction and wire
serialization) and proves the specification claims about it.

Modelling conventions:
* Rust `f64` values are embedded as exact rationals that are representable
  IEEE-754 binary64 numbers; each floating-point operation is the exact
  rational operation followed by `fp_round`, the round-to-nearest, ties-to-even
  binary64 rounding function.  The model covers finite doubles (the range
  actually exercised by the code; no infinities or NaNs arise in any claim).
* Machine integers are `Nat`/`Int` with explicit reductions where overflow can
  occur (`% 2^64`, saturating casts).
* Keccak-256, EIP-55 checksum formatting and the ECDSA signer live in external
  crates (`alloy`), so they are uninterpreted parameters (`Externals`);
  every hashing claim proved here is structural (about the bytes fed to the
  hash), which is exactly what the spec asserts.
* SHA-256, HMAC and URL-safe base64 are implemented concretely, since the spec
  fixes an exact HMAC test vector.
* Fallible Rust code returning `Result` is embedded with `Except`; a panic
  (`expect`/`unwrap`) is embedded as `Option.none` where a claim is about it.
-/

/-! ## Kernel-computable rational arithmetic

The `Rat` field operations of the ambient library are `@[irreducible]`, so the
computable parts of the model use these `mkRat`-based equivalents, which the
kernel evaluates directly. -/

/-- Product of two rationals (equal to `a * b`). -/
def qmul (a b : ℚ) : ℚ := mkRat (a.num * b.num) (a.den * b.den)

/-- Sum of two rationals (equal to `a + b`). -/
def qadd (a b : ℚ) : ℚ := mkRat (a.num * b.den + b.num * a.den) (a.den * b.den)

/-- Quotient of two rationals (equal to `a / b`, with `a / 0 = 0`). -/
def qdiv (a b : ℚ) : ℚ :=
  if 0 ≤ b.num then mkRat (a.num * b.den) (a.den * b.num.natAbs)
  else mkRat (-(a.num * b.den)) (a.den * b.num.natAbs)

/-! ## IEEE-754 binary64 model -/

/-- Number of binary digits of a natural number (`0` for `0`), implemented with
explicit fuel so that it reduces in the kernel. -/
def nbitsAux : Nat → Nat → Nat
  | 0, _ => 0
  | fuel + 1, n => if n = 0 then 0 else nbitsAux fuel (n / 2) + 1

/-- Bit length: `nbits n` is the bit length of `n`: for `n ≥ 1`, `2^(nbits n - 1) ≤ n < 2^(nbits n)`. -/
def nbits (n : Nat) : Nat := nbitsAux (n + 1) n

/-- Powers of two: `2^s` as a rational, for an integer exponent `s`. -/
def pow2q (s : Int) : ℚ :=
  match s with
  | .ofNat k => mkRat (2 ^ k) 1
  | .negSucc k => mkRat 1 (2 ^ (k + 1))

/-- Is `2^l ≤ x` (for positive `x`)?  Used to fix up the floor of `log₂`. -/
def pow2le (l : Int) (x : ℚ) : Bool :=
  decide (pow2q l ≤ x)

/-- Floor of `log₂ x` for a positive rational `x`. -/
def qfloorLog2 (x : ℚ) : Int :=
  let l : Int := (nbits x.num.natAbs : Int) - (nbits x.den : Int)
  if pow2le l x then l else l - 1

/-- Round the fraction `num / den` (with `den > 0`) to the nearest integer,
ties to even. -/
def rndHalfEven (num : Int) (den : Nat) : Int :=
  let q := num.fdiv den
  let r := num - q * den
  if 2 * r < den then q
  else if (den : Int) < 2 * r then q + 1
  else if q % 2 = 0 then q else q + 1

/-- Round an exact rational to the nearest IEEE-754 binary64 value
(round-to-nearest, ties-to-even), including the subnormal range.  Finite-range
model: values of magnitude ≥ 2^1024 do not occur in this development. -/
def fp_round (x : ℚ) : ℚ :=
  if x = 0 then 0
  else
    let e := qfloorLog2 |x|
    let s : Int := max (e - 52) (-1074)
    let q : ℚ := qmul x (pow2q (-s))
    qmul (mkRat (rndHalfEven q.num q.den) 1) (pow2q s)

/-- Binary64 multiplication: exact product, correctly rounded. -/
def fmul (a b : ℚ) : ℚ := fp_round (qmul a b)

/-- Binary64 division: exact quotient, correctly rounded (divisor nonzero in
all uses; `0` mapped to `0` keeps the function total). -/
def fdiv (a b : ℚ) : ℚ := fp_round (qdiv a b)

/-- Floor of a rational as an integer. -/
def qfloor (x : ℚ) : Int := x.num.fdiv x.den

/-- Ceiling of a rational as an integer. -/
def qceil (x : ℚ) : Int := -qfloor (-x)

/-- Rust `f64::floor`.  The floor of any finite double is itself exactly
representable, so the result is the exact integer. -/
def ffloor (x : ℚ) : ℚ := mkRat (qfloor x) 1

/-- Rust `f64::ceil` (exact, same representability argument as `ffloor`). -/
def fceil (x : ℚ) : ℚ := mkRat (qceil x) 1

/-- Round a rational to the nearest integer, ties away from zero
(the semantics of Rust `f64::round`). -/
def qroundTA (x : ℚ) : Int :=
  if 0 ≤ x then qfloor (qadd x (mkRat 1 2)) else -qfloor (qadd (-x) (mkRat 1 2))

/-- Rust `f64::round` (exact, the result is an exactly representable integer). -/
def fround (x : ℚ) : ℚ := mkRat (qroundTA x) 1

/-- Parse of a decimal literal `m × 10⁻ᵏ` into the nearest binary64 value
(Rust float literals and `str::parse::<f64>` round to nearest, ties to even). -/
def fpOfDec (m k : Nat) : ℚ := fp_round (mkRat m (10 ^ k))

/-- Rust `10f64.powi(d)`: exact for `d ≤ 22` (every such power of ten is a
representable double, and all partial products of the repeated squaring are
exact); only `d ≤ 10` occurs in the rounding configs. -/
def powi10 (d : Nat) : ℚ := fp_round (mkRat (10 ^ d) 1)

/-- Saturating Rust `as u64` cast of an integer (the semantics of a
float-to-integer `as` cast on a finite value). -/
def u64sat (z : Int) : Nat := min z.toNat (2 ^ 64 - 1)

/-! ## `decimal_places`: fractional digits of Rust's shortest `{}` float display

`format!("{}", x)` prints the decimal representation of the double `x` with the
fewest digits that parses back to `x` exactly (and prints integers without any
fractional part).  The number of fractional digits of that output is the least
`k` such that some decimal with `k` fractional digits rounds to `x`; since the
set of decimals rounding to `x` is an interval around `x`, it suffices to test
the two grid points adjacent to `x`. -/

/-- Does some decimal fraction `n / 10^k` round (to nearest binary64) to `x`? -/
def round_trips (x : ℚ) (k : Nat) : Bool :=
  let p : ℚ := mkRat (10 ^ k) 1
  let y := qmul x p
  fp_round (qdiv (mkRat (qfloor y) 1) p) = x ∨ fp_round (qdiv (mkRat (qceil y) 1) p) = x

def decimalPlacesAux (x : ℚ) : Nat → Nat → Nat
  | 0, k => k
  | fuel + 1, k => if round_trips x k then k else decimalPlacesAux x fuel (k + 1)

/-- The number of digits after the decimal point in Rust's `format!("{}", x)`
output for the double `x` (`decimal_places` in `order_builder.rs`):
the least `k` ≤ 1100 with a `k`-fractional-digit decimal rounding to `x`
(every finite double has one with at most 1074 fractional digits). -/
def decimal_places (x : ℚ) : Nat := decimalPlacesAux x 1101 0

/-! ## Rounding policy (`order_builder.rs`) -/

inductive Side where
  | buy
  | sell
deriving DecidableEq, Repr

inductive TickSize where
  | size0_1
  | size0_01
  | size0_001
  | size0_0001
deriving DecidableEq, Repr, BEq

structure RoundConfig where
  price : Nat
  size : Nat
  amount : Nat
deriving DecidableEq, Repr

/-- The static `ROUNDING_CONFIG` table. -/
def ROUNDING_CONFIG : List (TickSize × RoundConfig) :=
  [(.size0_1, ⟨1, 2, 3⟩), (.size0_01, ⟨2, 2, 4⟩),
   (.size0_001, ⟨3, 2, 5⟩), (.size0_0001, ⟨4, 2, 6⟩)]

/-- Source `get_round_config`: table lookup with the `(2,2,4)` fallback of the source. -/
def get_round_config (tick_size : TickSize) : RoundConfig :=
  (((ROUNDING_CONFIG.find? (fun p => p.1 == tick_size)).map Prod.snd)).getD ⟨2, 2, 4⟩

/-- Source `round_down`: `(x * factor).floor() / factor` with `factor = 10f64.powi(d)`. -/
def round_down (x : ℚ) (d : Nat) : ℚ :=
  let factor := powi10 d
  fdiv (ffloor (fmul x factor)) factor

/-- Source `round_normal`: `(x * factor).round() / factor`. -/
def round_normal (x : ℚ) (d : Nat) : ℚ :=
  let factor := powi10 d
  fdiv (fround (fmul x factor)) factor

/-- Source `round_up`: `(x * factor).ceil() / factor`. -/
def round_up (x : ℚ) (d : Nat) : ℚ :=
  let factor := powi10 d
  fdiv (fceil (fmul x factor)) factor

/-- Source `to_token_decimals`: `(x * 1_000_000.0).round() as u64`. -/
def to_token_decimals (x : ℚ) : Nat :=
  u64sat (qroundTA (fmul x (mkRat 1000000 1)))

/-- Source `OrderBuilder::get_order_amounts`: the quantization of a limit order into
`(side, maker_amount, taker_amount)`. -/
def get_order_amounts (side : Side) (size price : ℚ) (round_config : RoundConfig) :
    Nat × Nat × Nat :=
  let raw_price := round_normal price round_config.price
  match side with
  | .buy =>
    let raw_taker_amt := round_down size round_config.size
    let m0 := fmul raw_taker_amt raw_price
    let raw_maker_amt :=
      if decimal_places m0 > round_config.amount then
        let m1 := round_up m0 (round_config.amount + 4)
        if decimal_places m1 > round_config.amount then round_down m1 round_config.amount
        else m1
      else m0
    (0, to_token_decimals raw_maker_amt, to_token_decimals raw_taker_amt)
  | .sell =>
    let raw_maker_amt := round_down size round_config.size
    let t0 := fmul raw_maker_amt raw_price
    let raw_taker_amt :=
      if decimal_places t0 > round_config.amount then
        let t1 := round_up t0 (round_config.amount + 4)
        if decimal_places t1 > round_config.amount then round_down t1 round_config.amount
        else t1
      else t0
    (1, to_token_decimals raw_maker_amt, to_token_decimals raw_taker_amt)

/-- Source `OrderBuilder::get_market_order_amounts`: market-order quantization
(BUY divides the cost by the rounded price; SELL mirrors the limit case). -/
def get_market_order_amounts (side : Side) (amount price : ℚ)
    (round_config : RoundConfig) : Nat × Nat × Nat :=
  let raw_price := round_normal price round_config.price
  match side with
  | .buy =>
    let raw_maker_amt := round_down amount round_config.size
    let t0 := fdiv raw_maker_amt raw_price
    let raw_taker_amt :=
      if decimal_places t0 > round_config.amount then
        let t1 := round_up t0 (round_config.amount + 4)
        if decimal_places t1 > round_config.amount then round_down t1 round_config.amount
        else t1
      else t0
    (0, to_token_decimals raw_maker_amt, to_token_decimals raw_taker_amt)
  | .sell =>
    let raw_maker_amt := round_down amount round_config.size
    let t0 := fmul raw_maker_amt raw_price
    let raw_taker_amt :=
      if decimal_places t0 > round_config.amount then
        let t1 := round_up t0 (round_config.amount + 4)
        if decimal_places t1 > round_config.amount then round_down t1 round_config.amount
        else t1
      else t0
    (1, to_token_decimals raw_maker_amt, to_token_decimals raw_taker_amt)

/-! ## Bytes, strings, decimal representations -/

/-- Big-endian byte representation of `n` on `k` bytes (`to_be_bytes::<k>()`). -/
def beBytes (k : Nat) (n : Nat) : List Nat :=
  (List.range k).map (fun i => n / 256 ^ (k - 1 - i) % 256)

/-- The 32-byte big-endian encoding of a `U256` word (addresses, being 20-byte
values `< 2^160`, are left-padded with zero bytes by the same encoding). -/
def be32 (n : Nat) : List Nat := beBytes 32 n

/-- UTF-8 encoding of one unicode scalar value. -/
def utf8Char (c : Char) : List Nat :=
  let n := c.toNat
  if n < 0x80 then [n]
  else if n < 0x800 then [0xC0 + n / 64, 0x80 + n % 64]
  else if n < 0x10000 then [0xE0 + n / 4096, 0x80 + n / 64 % 64, 0x80 + n % 64]
  else [0xF0 + n / 262144, 0x80 + n / 4096 % 64, 0x80 + n / 64 % 64, 0x80 + n % 64]

/-- UTF-8 bytes of a string (Rust `str::as_bytes`). -/
def utf8Bytes (s : String) : List Nat := s.data.flatMap utf8Char

/-- Decimal digit characters, written with fuel so the kernel evaluates it. -/
def decReprAux : Nat → Nat → List Char
  | 0, _ => []
  | fuel + 1, n =>
    if n < 10 then [Char.ofNat (48 + n)]
    else decReprAux fuel (n / 10) ++ [Char.ofNat (48 + n % 10)]

/-- Decimal string of a natural number (Rust `to_string()` on an unsigned
integer type, and `format!("{}", ..)` on one). -/
def decRepr (n : Nat) : String := ⟨decReprAux (n + 1) n⟩

/-- Decimal string of an `i32` (`to_string()` on a signed integer). -/
def intRepr (z : Int) : String :=
  if z < 0 then "-" ++ decRepr z.natAbs else decRepr z.natAbs

/-- Value of a decimal digit character, `none` for any other character. -/
def digitVal (c : Char) : Option Nat :=
  if 48 ≤ c.toNat ∧ c.toNat ≤ 57 then some (c.toNat - 48) else none

/-- Value of a digit character in base 16 (`0-9a-fA-F`). -/
def hexDigitVal (c : Char) : Option Nat :=
  if 48 ≤ c.toNat ∧ c.toNat ≤ 57 then some (c.toNat - 48)
  else if 97 ≤ c.toNat ∧ c.toNat ≤ 102 then some (c.toNat - 87)
  else if 65 ≤ c.toNat ∧ c.toNat ≤ 70 then some (c.toNat - 55)
  else none

/-- Fold a digit list in a given base; `none` on the first invalid digit. -/
def parseDigitsAux (dv : Char → Option Nat) (base : Nat) : List Char → Nat → Option Nat
  | [], acc => some acc
  | c :: cs, acc =>
    match dv c with
    | some d => parseDigitsAux dv base cs (acc * base + d)
    | none => none

/-- Rust `str::parse::<u128>()`: an optional leading `+`, then one or more
decimal digits, value below `2^128`. -/
def parseU128 (s : String) : Option Nat :=
  let cs := if s.data.head? = some '+' then s.data.tail else s.data
  if cs = [] then none
  else (parseDigitsAux digitVal 10 cs 0).bind
    (fun n => if n < 2 ^ 128 then some n else none)

/-- Source `U256::from_str_radix` as applied in `create_order`: base 16 on the
rest of the string when it starts with `0x` (`strip_prefix("0x")`), base 10
otherwise.  ruint's parser folds the digit characters and its `ParseError` has
no empty-input variant, so an empty digit string (token id `""` or `"0x"`)
parses as 0; an invalid digit for the radix or a value of `2^256` or more is
an error. -/
def parseU256 (s : String) : Option Nat :=
  match s.data with
  | '0' :: 'x' :: rest =>
    (parseDigitsAux hexDigitVal 16 rest 0).bind
      (fun n => if n < 2 ^ 256 then some n else none)
  | l =>
    (parseDigitsAux digitVal 10 l 0).bind
      (fun n => if n < 2 ^ 256 then some n else none)

/-- External `alloy` `Address` parsing (`str::parse::<Address>()`): an optional `0x`
prefix followed by exactly 40 hexadecimal digits. -/
def parseAddress (s : String) : Option Nat :=
  match s.data with
  | '0' :: 'x' :: rest =>
    if rest.length = 40 then parseDigitsAux hexDigitVal 16 rest 0 else none
  | l =>
    if l.length = 40 then parseDigitsAux hexDigitVal 16 l 0 else none

instance {ε α : Type} [DecidableEq ε] [DecidableEq α] : DecidableEq (Except ε α) :=
  fun x y =>
    match x, y with
    | .error e, .error f =>
      if h : e = f then .isTrue (by rw [h]) else .isFalse (by simp [h])
    | .ok a, .ok b =>
      if h : a = b then .isTrue (by rw [h]) else .isFalse (by simp [h])
    | .error _, .ok _ => .isFalse (by simp)
    | .ok _, .error _ => .isFalse (by simp)

/-! ## Contract registry (`config.rs`) -/

structure ContractConfig where
  exchange : String
  collateral : String
  conditional_tokens : String
deriving DecidableEq, Repr

/-- Static `POLYGON_CONFIG`. -/
def POLYGON_CONFIG : ContractConfig :=
  { exchange := "0x4bFb41d5B3570DeFd03C39a9A4D8dE6Bd8B8982E"
    collateral := "0x2791Bca1f2de4661ED88A30C99A7a9449Aa84174"
    conditional_tokens := "0x4D97DCd97eC945f40cF65F87097ACe5EA0476045" }

/-- Static `POLYGON_NEG_RISK_CONFIG`. -/
def POLYGON_NEG_RISK_CONFIG : ContractConfig :=
  { exchange := "0xC5d563A36AE78145C45a50134d48A1215220f80a"
    collateral := "0x2791bca1f2de4661ed88a30c99a7a9449aa84174"
    conditional_tokens := "0x4D97DCd97eC945f40cF65F87097ACe5EA0476045" }

/-- Source `get_contract_config`: the static (chain id, neg-risk) lookup. -/
def get_contract_config (chain_id : Nat) (neg_risk : Bool) : Option ContractConfig :=
  match chain_id, neg_risk with
  | 137, false => some POLYGON_CONFIG
  | 137, true => some POLYGON_NEG_RISK_CONFIG
  | _, _ => none

/-! ## Error taxonomy (`error.rs`) -/

/-- Source `ClobError`.  Payloads of externally-generated errors are embedded as their
display strings. -/
inductive ClobError where
  | http : String → ClobError
  | json : String → ClobError
  | api : String → ClobError
  | invalidParameter : String → ClobError
  | signing : String → ClobError
  | authRequired : String → ClobError
deriving DecidableEq, Repr

/-! ## External primitives

Keccak-256, EIP-55 checksum rendering and ECDSA signing are provided by the
`alloy` crates, outside this repository; they enter the model as uninterpreted
functions.  Every theorem below is universally quantified over them. -/

/-- The external primitives used by the hashing/signing pipeline:
`keccak` is `alloy_primitives::keccak256` (bytes to 32 bytes);
`toChecksum` is `Address::to_checksum(None)`;
`sign` is `Signer::sign_hash` (32-byte digest to a hex signature string,
or a `ClobError` from the underlying signer). -/
structure Externals where
  keccak : List Nat → List Nat
  toChecksum : Nat → String
  sign : List Nat → Except ClobError String

/-- The state of `signer.rs`'s `Signer` relevant to hashing: its address
(a 20-byte value, `< 2^160`) and configured chain id. -/
structure SignerM where
  address : Nat
  chainId : Nat

/-- The state of `OrderBuilder`: signer, signature type and funder address. -/
structure OrderBuilderM where
  signer : SignerM
  sig_type : Nat
  funder : Nat

/-! ## Argument records (`types.rs`) -/

structure OrderArgs where
  token_id : String
  price : ℚ
  size : ℚ
  side : Side
  fee_rate_bps : Int
  nonce : Nat
  expiration : Nat
  taker : String

/-- Source `MarketOrderArgs` (note: it has no expiration field at all; `order_type`
is not used by `create_market_order`). -/
structure MarketOrderArgs where
  token_id : String
  amount : ℚ
  side : Side
  price : ℚ
  fee_rate_bps : Int
  nonce : Nat
  taker : String

structure CreateOrderOptions where
  tick_size : TickSize
  neg_risk : Bool

/-- Rust `i32 as u64` cast (sign extension, then reinterpretation). -/
def i32AsU64 (z : Int) : Nat := (z % (2 ^ 64 : Int)).toNat

/-! ## EIP-712 hashing (`order_builder.rs`) -/

/-- Source `OrderBuilder::domain_separator`: the order-exchange EIP-712 domain hash.
The source parses the exchange address string with
`.expect("invalid exchange address")`; both static config addresses parse, and
the model uses the parsed value (`getD 0` is never hit on the source's inputs). -/
def domain_separator (keccak : List Nat → List Nat) (exchange : String)
    (chain_id : Nat) : List Nat :=
  keccak
    (keccak (utf8Bytes "EIP712Domain(string name,string version,uint256 chainId,address verifyingContract)")
      ++ keccak (utf8Bytes "Polymarket CTF Exchange")
      ++ keccak (utf8Bytes "1")
      ++ be32 chain_id
      ++ be32 ((parseAddress exchange).getD 0))

/-- The EIP-712 type string of the order struct. -/
def orderTypeStr : String :=
  "Order(uint256 salt,address maker,address signer,address taker,uint256 tokenId,uint256 makerAmount,uint256 takerAmount,uint256 expiration,uint256 nonce,uint256 feeRateBps,uint8 side,uint8 signatureType)"

/-- Source `OrderBuilder::order_struct_hash`: type hash followed by the thirteen
32-byte-encoded fields, in the source's field order, hashed. -/
def order_struct_hash (keccak : List Nat → List Nat) (salt maker signer_addr taker
    token_id maker_amount taker_amount expiration nonce fee_rate_bps side
    signature_type : Nat) : List Nat :=
  keccak
    (keccak (utf8Bytes orderTypeStr)
      ++ be32 salt ++ be32 maker ++ be32 signer_addr ++ be32 taker
      ++ be32 token_id ++ be32 maker_amount ++ be32 taker_amount
      ++ be32 expiration ++ be32 nonce ++ be32 fee_rate_bps
      ++ be32 side ++ be32 signature_type)

/-! ## Signed order record and wire serialization (`order_builder.rs`) -/

structure SignedOrder where
  salt : String
  maker : String
  signer : String
  taker : String
  token_id : String
  maker_amount : String
  taker_amount : String
  expiration : String
  nonce : String
  fee_rate_bps : String
  side : Nat
  signature_type : Nat
  signature : String
deriving DecidableEq, Repr

/-- A JSON scalar as emitted by the `SignedOrder` serializer: every field is
either a string or an integer. -/
inductive Jv where
  | str : String → Jv
  | num : Nat → Jv
deriving DecidableEq, Repr

/-- Source `serialize_side`: 0 is emitted as `"BUY"`, anything else as `"SELL"`. -/
def serialize_side (value : Nat) : Jv :=
  match value with
  | 0 => .str "BUY"
  | _ => .str "SELL"

/-- Source `serialize_salt_as_int`: the salt string is parsed as a `u128` and emitted
as a JSON integer; if it does not parse it is emitted as a string. -/
def serialize_salt_as_int (value : String) : Jv :=
  match parseU128 value with
  | some n => .num n
  | none => .str value

/-- The serde serialization of `SignedOrder` as an ordered field list, with
serde's renamed keys. -/
def signedOrderJson (o : SignedOrder) : List (String × Jv) :=
  [("salt", serialize_salt_as_int o.salt),
   ("maker", .str o.maker),
   ("signer", .str o.signer),
   ("taker", .str o.taker),
   ("tokenId", .str o.token_id),
   ("makerAmount", .str o.maker_amount),
   ("takerAmount", .str o.taker_amount),
   ("expiration", .str o.expiration),
   ("nonce", .str o.nonce),
   ("feeRateBps", .str o.fee_rate_bps),
   ("side", serialize_side o.side),
   ("signatureType", .num o.signature_type),
   ("signature", .str o.signature)]

/-! ## Order creation (`order_builder.rs`)

`create_order`/`create_market_order` read the system clock and a random draw
only to produce the salt (`(now * random()).round() as u64`); the model takes
the resulting `u64` salt as a parameter.  Signing is `ext.sign`. -/

/-- Source `OrderBuilder::create_order`. -/
def create_order (ext : Externals) (b : OrderBuilderM) (salt : Nat) (order_args : OrderArgs)
    (options : CreateOrderOptions) : Except ClobError SignedOrder :=
  let round_config := get_round_config options.tick_size
  let sm := get_order_amounts order_args.side order_args.size order_args.price round_config
  let side := sm.1
  let maker_amount := sm.2.1
  let taker_amount := sm.2.2
  match get_contract_config b.signer.chainId options.neg_risk with
  | none => .error (.invalidParameter "invalid chain_id")
  | some contract_config =>
    let taker_addr := (parseAddress order_args.taker).getD 0
    match parseU256 order_args.token_id with
    | none => .error (.invalidParameter "invalid token_id")
    | some token_id =>
      let domain_sep := domain_separator ext.keccak contract_config.exchange b.signer.chainId
      let struct_hash := order_struct_hash ext.keccak salt b.funder b.signer.address
        taker_addr token_id maker_amount taker_amount order_args.expiration
        order_args.nonce (i32AsU64 order_args.fee_rate_bps) side b.sig_type
      let hash := ext.keccak ([0x19, 0x01] ++ domain_sep ++ struct_hash)
      match ext.sign hash with
      | .error e => .error e
      | .ok signature =>
        .ok { salt := decRepr salt
              maker := ext.toChecksum b.funder
              signer := ext.toChecksum b.signer.address
              taker := order_args.taker
              token_id := order_args.token_id
              maker_amount := decRepr maker_amount
              taker_amount := decRepr taker_amount
              expiration := decRepr order_args.expiration
              nonce := decRepr order_args.nonce
              fee_rate_bps := intRepr order_args.fee_rate_bps
              side := side
              signature_type := b.sig_type
              signature := signature }

/-- Source `OrderBuilder::create_market_order`: same pipeline over
`get_market_order_amounts`, with the hashed expiration fixed to `0`
(`U256::from(0u64)`, "market orders have no expiration") and the serialized
expiration fixed to `"0"`. -/
def create_market_order (ext : Externals) (b : OrderBuilderM) (salt : Nat)
    (order_args : MarketOrderArgs) (options : CreateOrderOptions) :
    Except ClobError SignedOrder :=
  let round_config := get_round_config options.tick_size
  let sm := get_market_order_amounts order_args.side order_args.amount
    order_args.price round_config
  let side := sm.1
  let maker_amount := sm.2.1
  let taker_amount := sm.2.2
  match get_contract_config b.signer.chainId options.neg_risk with
  | none => .error (.invalidParameter "invalid chain_id")
  | some contract_config =>
    let taker_addr := (parseAddress order_args.taker).getD 0
    match parseU256 order_args.token_id with
    | none => .error (.invalidParameter "invalid token_id")
    | some token_id =>
      let domain_sep := domain_separator ext.keccak contract_config.exchange b.signer.chainId
      let struct_hash := order_struct_hash ext.keccak salt b.funder b.signer.address
        taker_addr token_id maker_amount taker_amount 0
        order_args.nonce (i32AsU64 order_args.fee_rate_bps) side b.sig_type
      let hash := ext.keccak ([0x19, 0x01] ++ domain_sep ++ struct_hash)
      match ext.sign hash with
      | .error e => .error e
      | .ok signature =>
        .ok { salt := decRepr salt
              maker := ext.toChecksum b.funder
              signer := ext.toChecksum b.signer.address
              taker := order_args.taker
              token_id := order_args.token_id
              maker_amount := decRepr maker_amount
              taker_amount := decRepr taker_amount
              expiration := "0"
              nonce := decRepr order_args.nonce
              fee_rate_bps := intRepr order_args.fee_rate_bps
              side := side
              signature_type := b.sig_type
              signature := signature }

/-! ## Auth-challenge hashing (`signing/eip712.rs`) and L1 headers (`headers.rs`) -/

def CLOB_DOMAIN_NAME : String := "ClobAuthDomain"

def CLOB_VERSION : String := "1"

def MSG_TO_SIGN : String := "This message attests that I control the given wallet"

/-- Source `eip712.rs` `domain_separator`: the ClobAuth EIP-712 domain hash (note:
no verifying-contract field, unlike the order domain). -/
def clob_domain_separator (keccak : List Nat → List Nat) (chain_id : Nat) : List Nat :=
  keccak
    (keccak (utf8Bytes "EIP712Domain(string name,string version,uint256 chainId)")
      ++ keccak (utf8Bytes CLOB_DOMAIN_NAME)
      ++ keccak (utf8Bytes CLOB_VERSION)
      ++ be32 chain_id)

/-- Source `eip712.rs` `struct_hash`: the ClobAuth struct hash.  The timestamp
component is `keccak256(timestamp.to_string())` — the hash of the decimal
string, not a 32-byte integer encoding. -/
def clob_struct_hash (keccak : List Nat → List Nat) (address timestamp nonce : Nat) :
    List Nat :=
  keccak
    (keccak (utf8Bytes "ClobAuth(address address,string timestamp,uint256 nonce,string message)")
      ++ be32 address
      ++ keccak (utf8Bytes (decRepr timestamp))
      ++ be32 nonce
      ++ keccak (utf8Bytes MSG_TO_SIGN))

/-- The same struct hash with the timestamp instead encoded as a raw 32-byte
big-endian integer.  Modelled from the spec's contrast ("not as a raw
integer"): this is the encoding the source does NOT use, defined only to state
that the two disagree. -/
def spec_clob_struct_hash_rawint (keccak : List Nat → List Nat)
    (address timestamp nonce : Nat) : List Nat :=
  keccak
    (keccak (utf8Bytes "ClobAuth(address address,string timestamp,uint256 nonce,string message)")
      ++ be32 address
      ++ be32 timestamp
      ++ be32 nonce
      ++ keccak (utf8Bytes MSG_TO_SIGN))

/-- Source `sign_clob_auth_message`: EIP-712 digest (`0x19 0x01 || domain || struct`)
of the auth challenge, passed to the signer. -/
def sign_clob_auth_message (ext : Externals) (signer : SignerM)
    (timestamp nonce : Nat) : Except ClobError String :=
  ext.sign (ext.keccak ([0x19, 0x01]
    ++ clob_domain_separator ext.keccak signer.chainId
    ++ clob_struct_hash ext.keccak signer.address timestamp nonce))

structure L1Headers where
  address : String
  signature : String
  timestamp : String
  nonce : String
deriving DecidableEq, Repr

/-- Source `create_level_1_headers`; the wall-clock timestamp read inside the source
is a parameter of the model. -/
def create_level_1_headers (ext : Externals) (signer : SignerM) (timestamp : Nat)
    (nonce : Option Nat) : Except ClobError L1Headers :=
  let n := nonce.getD 0
  match sign_clob_auth_message ext signer timestamp n with
  | .error e => .error e
  | .ok signature =>
    .ok { address := ext.toChecksum signer.address
          signature := signature
          timestamp := decRepr timestamp
          nonce := decRepr n }

/-! ## SHA-256, HMAC-SHA256 (`hmac` / `sha2` crates as used by `signing/hmac.rs`)

A concrete executable implementation over byte lists (`Nat`s below 256), with
32-bit words as `Nat`s reduced modulo `2^32`. -/

/-- Reduce modulo `2^32`. -/
def m32 (n : Nat) : Nat := n % 4294967296

/-- Right rotation of a 32-bit word. -/
def rotr32 (x n : Nat) : Nat := m32 ((x >>> n) ||| (x <<< (32 - n)))

/-- The SHA-256 round constants. -/
def sha256K : List Nat :=
  [1116352408, 1899447441, 3049323471, 3921009573, 961987163,
   1508970993, 2453635748, 2870763221, 3624381080, 310598401,
   607225278, 1426881987, 1925078388, 2162078206, 2614888103,
   3248222580, 3835390401, 4022224774, 264347078, 604807628,
   770255983, 1249150122, 1555081692, 1996064986, 2554220882,
   2821834349, 2952996808, 3210313671, 3336571891, 3584528711,
   113926993, 338241895, 666307205, 773529912, 1294757372,
   1396182291, 1695183700, 1986661051, 2177026350, 2456956037,
   2730485921, 2820302411, 3259730800, 3345764771, 3516065817,
   3600352804, 4094571909, 275423344, 430227734, 506948616,
   659060556, 883997877, 958139571, 1322822218, 1537002063,
   1747873779, 1955562222, 2024104815, 2227730452, 2361852424,
   2428436474, 2756734187, 3204031479, 3329325298]

/-- The SHA-256 initial hash state. -/
def sha256IV : List Nat :=
  [1779033703, 3144134277, 1013904242, 2773480762,
   1359893119, 2600822924, 528734635, 1541459225]

/-- Big-endian 4-byte groups to 32-bit words. -/
def bytesToWords : List Nat → List Nat
  | b0 :: b1 :: b2 :: b3 :: rest =>
    (b0 <<< 24 ||| b1 <<< 16 ||| b2 <<< 8 ||| b3) :: bytesToWords rest
  | _ => []

/-- Words back to big-endian bytes. -/
def wordsToBytes (ws : List Nat) : List Nat := ws.flatMap (beBytes 4)

/-- Message-schedule extension: prepends `fuel` new words to the reversed
schedule (head = most recent word). -/
def sha256SchedAux : Nat → List Nat → List Nat
  | 0, wrev => wrev
  | fuel + 1, wrev =>
    let w2 := wrev.getD 1 0
    let w7 := wrev.getD 6 0
    let w15 := wrev.getD 14 0
    let w16 := wrev.getD 15 0
    let s0 := rotr32 w15 7 ^^^ rotr32 w15 18 ^^^ (w15 >>> 3)
    let s1 := rotr32 w2 17 ^^^ rotr32 w2 19 ^^^ (w2 >>> 10)
    sha256SchedAux fuel (m32 (w16 + s0 + w7 + s1) :: wrev)

/-- The 64-word message schedule of one 16-word block. -/
def sha256Schedule (block : List Nat) : List Nat :=
  (sha256SchedAux 48 block.reverse).reverse

/-- One SHA-256 compression round. -/
def sha256Round (st : List Nat) (kw : Nat × Nat) : List Nat :=
  match st with
  | [a, b, c, d, e, f, g, h] =>
    let s1 := rotr32 e 6 ^^^ rotr32 e 11 ^^^ rotr32 e 25
    let ch := (e &&& f) ^^^ ((0xffffffff ^^^ e) &&& g)
    let t1 := m32 (h + s1 + ch + kw.1 + kw.2)
    let s0 := rotr32 a 2 ^^^ rotr32 a 13 ^^^ rotr32 a 22
    let mj := (a &&& b) ^^^ (a &&& c) ^^^ (b &&& c)
    let t2 := m32 (s0 + mj)
    [m32 (t1 + t2), a, b, c, m32 (d + t1), e, f, g]
  | _ => st

/-- Process one 64-byte block into the running hash state. -/
def sha256Block (h : List Nat) (block : List Nat) : List Nat :=
  let w := sha256Schedule (bytesToWords block)
  let st := (sha256K.zip w).foldl sha256Round h
  (h.zip st).map (fun p => m32 (p.1 + p.2))

/-- SHA-256 padding: `0x80`, zeros to 56 mod 64, 8-byte big-endian bit length. -/
def sha256Pad (msg : List Nat) : List Nat :=
  msg ++ [0x80] ++ List.replicate ((119 - msg.length % 64) % 64) 0
    ++ beBytes 8 (msg.length * 8)

/-- Split into 64-byte chunks (fuel = list length). -/
def chunks64Aux : Nat → List Nat → List (List Nat)
  | 0, _ => []
  | fuel + 1, l => if l = [] then [] else l.take 64 :: chunks64Aux fuel (l.drop 64)

/-- SHA-256 of a byte list. -/
def sha256 (msg : List Nat) : List Nat :=
  wordsToBytes ((chunks64Aux (sha256Pad msg).length (sha256Pad msg)).foldl sha256Block sha256IV)

/-- HMAC-SHA256 (`Hmac::<Sha256>::new_from_slice` accepts any key length:
longer-than-block keys are hashed, shorter ones zero-padded). -/
def hmacSha256 (key msg : List Nat) : List Nat :=
  let k0 := if 64 < key.length then sha256 key else key
  let kp := k0 ++ List.replicate (64 - k0.length) 0
  sha256 ((kp.map (fun b => b ^^^ 0x5c)) ++ sha256 ((kp.map (fun b => b ^^^ 0x36)) ++ msg))

/-! ## URL-safe base64 (`base64::engine::general_purpose::URL_SAFE`):
padded encoding; strict decoding (canonical padding required, trailing bits
must be zero). -/

/-- The URL-safe base64 alphabet. -/
def b64Alphabet : List Char :=
  "ABCDEFGHIJKLMNOPQRSTUVWXYZabcdefghijklmnopqrstuvwxyz0123456789-_".data

/-- The alphabet character of a 6-bit value. -/
def b64Char (n : Nat) : Char := b64Alphabet.getD n 'A'

/-- Index of a character in the alphabet, `none` if absent. -/
def b64ValAux : List Char → Nat → Char → Option Nat
  | [], _, _ => none
  | a :: rest, i, c => if a = c then some i else b64ValAux rest (i + 1) c

def b64Val (c : Char) : Option Nat := b64ValAux b64Alphabet 0 c

/-- Padded URL-safe base64 encoding of a byte list. -/
def b64EncAux : List Nat → List Char
  | b0 :: b1 :: b2 :: rest =>
    let n := b0 <<< 16 ||| b1 <<< 8 ||| b2
    b64Char (n >>> 18) :: b64Char (n >>> 12 &&& 63) :: b64Char (n >>> 6 &&& 63) ::
      b64Char (n &&& 63) :: b64EncAux rest
  | [b0, b1] =>
    [b64Char (b0 >>> 2), b64Char ((b0 &&& 3) <<< 4 ||| b1 >>> 4),
     b64Char ((b1 &&& 15) <<< 2), '=']
  | [b0] => [b64Char (b0 >>> 2), b64Char ((b0 &&& 3) <<< 4), '=', '=']
  | [] => []

def base64UrlEncode (bytes : List Nat) : String := ⟨b64EncAux bytes⟩

/-- Strict padded URL-safe base64 decoding: length a multiple of four,
`=` only as canonical final padding, unused trailing bits zero. -/
def b64DecAux : List Char → Option (List Nat)
  | [] => some []
  | c0 :: c1 :: c2 :: c3 :: rest =>
    match b64Val c0, b64Val c1 with
    | some v0, some v1 =>
      if c2 = '=' then
        if c3 = '=' ∧ rest = [] ∧ v1 &&& 15 = 0 then
          some [v0 <<< 2 ||| v1 >>> 4]
        else none
      else
        match b64Val c2 with
        | some v2 =>
          if c3 = '=' then
            if rest = [] ∧ v2 &&& 3 = 0 then
              some [v0 <<< 2 ||| v1 >>> 4, (v1 &&& 15) <<< 4 ||| v2 >>> 2]
            else none
          else
            match b64Val c3 with
            | some v3 =>
              (b64DecAux rest).map
                (fun tl => (v0 <<< 2 ||| v1 >>> 4) :: ((v1 &&& 15) <<< 4 ||| v2 >>> 2) ::
                  ((v2 &&& 3) <<< 6 ||| v3) :: tl)
            | none => none
        | none => none
    | _, _ => none
  | _ => none

def base64UrlDecode (s : String) : Option (List Nat) := b64DecAux s.data

/-! ## HMAC request signing (`signing/hmac.rs`) -/

/-- Source `build_hmac_signature`.  The source decodes the secret with
`.expect("invalid base64 secret")`, which panics on a non-base64 secret; the
panic is modelled as `none`. -/
def build_hmac_signature (secret : String) (timestamp : Nat) (method request_path : String)
    (body : Option String) : Option String :=
  match base64UrlDecode secret with
  | none => none
  | some decoded_secret =>
    let message := decRepr timestamp ++ method ++ request_path ++
      (match body with | some b => b | none => "")
    some (base64UrlEncode (hmacSha256 decoded_secret (utf8Bytes message)))

/-! ## Spec-side definitions

Definitions in this section are written from the specification's wording (not
from the source), for the refinement claims comparing spec and code. -/

/-- Modelled from the spec: the over-precision correction rule of §4.1 — "If
the computed raw amount has more decimal digits than `amount_decimals`, first
re-round it up to `amount_decimals+4` places; if still over-precise, floor it
to `amount_decimals`" — as a single rule applied to a raw amount. -/
def spec_fix_overprecision (round_config : RoundConfig) (raw : ℚ) : ℚ :=
  if decimal_places raw > round_config.amount then
    let r := round_up raw (round_config.amount + 4)
    if decimal_places r > round_config.amount then round_down r round_config.amount
    else r
  else raw

/-- Modelled from the spec: the §4.1 limit-order algorithm, sentence by
sentence — "round price to `price_decimals` using standard
round-half-away-from-zero.  For BUY: `taker_raw = floor(size, size_decimals)`;
`maker_raw = taker_raw × rounded_price`.  For SELL: `maker_raw = floor(size,
size_decimals)`; `taker_raw = maker_raw × rounded_price`", the over-precision
rule, and "finally scale by 10^6 and round to the nearest integer" — over the
same binary64 arithmetic the reference implementation uses (§9 requires
reproducing the floating-point behaviour, not idealized decimals). -/
def spec_get_order_amounts (side : Side) (size price : ℚ)
    (round_config : RoundConfig) : Nat × Nat × Nat :=
  let rounded_price := round_normal price round_config.price
  match side with
  | .buy =>
    let taker_raw := round_down size round_config.size
    let maker_raw := spec_fix_overprecision round_config (fmul taker_raw rounded_price)
    (0, to_token_decimals maker_raw, to_token_decimals taker_raw)
  | .sell =>
    let maker_raw := round_down size round_config.size
    let taker_raw := spec_fix_overprecision round_config (fmul maker_raw rounded_price)
    (1, to_token_decimals maker_raw, to_token_decimals taker_raw)

/-! ## Theorems

First, helper lemmas; the claim theorems follow. -/

set_option maxRecDepth 4000000

theorem qmul_eq (a b : ℚ) : qmul a b = a * b := by
  rw [Rat.mul_def, Rat.normalize_eq_mkRat]; rfl

theorem qadd_eq (a b : ℚ) : qadd a b = a + b := (Rat.add_def' a b).symm

theorem qdiv_eq (a b : ℚ) : qdiv a b = a / b := by
  rw [Rat.div_def']
  rcases le_or_lt 0 b.num with h | h
  · have e : ((a.den * b.num.natAbs : Nat) : Int) = (a.den : Int) * b.num := by
      push_cast [Int.natAbs_of_nonneg h]; ring
    simp only [qdiv, if_pos h, ← Rat.divInt_ofNat, e]
  · have e : ((a.den * b.num.natAbs : Nat) : Int) = -((a.den : Int) * b.num) := by
      push_cast; rw [abs_of_neg h]; ring
    simp only [qdiv, if_neg (not_le.mpr h), ← Rat.divInt_ofNat, e, Rat.divInt_neg',
      Int.neg_neg]

theorem parseDigitsAux_append (dv : Char → Option Nat) (base : Nat) (l1 l2 : List Char) :
    ∀ acc, parseDigitsAux dv base (l1 ++ l2) acc
      = (parseDigitsAux dv base l1 acc).bind (fun a => parseDigitsAux dv base l2 a) := by
  induction l1 with
  | nil => intro acc; rfl
  | cons c cs ih =>
    intro acc
    simp only [List.cons_append, parseDigitsAux]
    cases dv c with
    | none => rfl
    | some d => exact ih (acc * base + d)

theorem digitVal_ofNat (d : Nat) (h : d < 10) : digitVal (Char.ofNat (48 + d)) = some d := by
  interval_cases d <;> decide

theorem decReprAux_ne_nil (fuel n : Nat) (h : n < fuel) : decReprAux fuel n ≠ [] := by
  cases fuel with
  | zero => omega
  | succ fuel =>
    unfold decReprAux
    split
    · simp
    · simp

theorem decReprAux_head (fuel n : Nat) (h : n < fuel) :
    ∃ d cs, decReprAux fuel n = Char.ofNat (48 + d) :: cs ∧ d < 10 := by
  induction fuel generalizing n with
  | zero => omega
  | succ fuel ih =>
    unfold decReprAux
    by_cases h10 : n < 10
    · exact ⟨n, [], by simp [h10], h10⟩
    · have hn : n / 10 < fuel := by omega
      obtain ⟨d, cs, he, hd⟩ := ih (n / 10) hn
      exact ⟨d, cs ++ [Char.ofNat (48 + n % 10)], by simp [h10, he], hd⟩

theorem parse_decReprAux (fuel : Nat) : ∀ n acc, n < fuel →
    parseDigitsAux digitVal 10 (decReprAux fuel n) acc
      = some (acc * 10 ^ (decReprAux fuel n).length + n) := by
  induction fuel with
  | zero => intro n _ h; omega
  | succ fuel ih =>
    intro n acc h
    unfold decReprAux
    by_cases h10 : n < 10
    · simp only [h10, if_pos]
      simp [parseDigitsAux, digitVal_ofNat n h10]
    · simp only [h10, if_neg, if_false]
      have hn : n / 10 < fuel := by omega
      rw [parseDigitsAux_append, ih (n / 10) acc hn]
      simp only [Option.bind_some, parseDigitsAux, digitVal_ofNat (n % 10) (by omega)]
      rw [List.length_append]
      have e : (acc * 10 ^ (decReprAux fuel (n / 10)).length + n / 10) * 10 + n % 10
          = acc * 10 ^ ((decReprAux fuel (n / 10)).length + 1) + n := by
        rw [pow_succ]
        have := Nat.div_add_mod n 10
        ring_nf
        omega
      simp [e, parseDigitsAux]

theorem parseU128_decRepr (n : Nat) (h : n < 2 ^ 128) : parseU128 (decRepr n) = some n := by
  obtain ⟨d, cs, he, hd⟩ := decReprAux_head (n + 1) n (Nat.lt_succ_self n)
  have h48 : (Char.ofNat (48 + d)).toNat = 48 + d := by interval_cases d <;> decide
  have hhead : ¬((decReprAux (n + 1) n).head? = some '+') := by
    rw [he]
    intro hc
    simp only [List.head?_cons, Option.some.injEq] at hc
    have h2 := congrArg Char.toNat hc
    have h43 : ('+').toNat = 43 := rfl
    rw [h48, h43] at h2
    omega
  have hne : ¬(decReprAux (n + 1) n = []) := decReprAux_ne_nil (n + 1) n (Nat.lt_succ_self n)
  have hp := parse_decReprAux (n + 1) n 0 (Nat.lt_succ_self n)
  have hdata : (decRepr n).data = decReprAux (n + 1) n := rfl
  unfold parseU128
  simp only [if_neg hhead, if_neg hne, hdata, hp, Option.some_bind, Nat.zero_mul,
    Nat.zero_add]
  exact if_pos h

theorem create_order_ok_elim {ext : Externals} {b : OrderBuilderM} {salt : Nat}
    {order_args : OrderArgs} {options : CreateOrderOptions} {o : SignedOrder}
    (h : create_order ext b salt order_args options = .ok o) :
    ∃ cfg tid,
      get_contract_config b.signer.chainId options.neg_risk = some cfg ∧
      parseU256 order_args.token_id = some tid ∧
      ext.sign (ext.keccak ([0x19, 0x01]
          ++ domain_separator ext.keccak cfg.exchange b.signer.chainId
          ++ order_struct_hash ext.keccak salt b.funder b.signer.address
              ((parseAddress order_args.taker).getD 0) tid
              (get_order_amounts order_args.side order_args.size order_args.price
                (get_round_config options.tick_size)).2.1
              (get_order_amounts order_args.side order_args.size order_args.price
                (get_round_config options.tick_size)).2.2
              order_args.expiration order_args.nonce (i32AsU64 order_args.fee_rate_bps)
              (get_order_amounts order_args.side order_args.size order_args.price
                (get_round_config options.tick_size)).1
              b.sig_type)) = .ok o.signature ∧
      o = { salt := decRepr salt
            maker := ext.toChecksum b.funder
            signer := ext.toChecksum b.signer.address
            taker := order_args.taker
            token_id := order_args.token_id
            maker_amount := decRepr (get_order_amounts order_args.side order_args.size
              order_args.price (get_round_config options.tick_size)).2.1
            taker_amount := decRepr (get_order_amounts order_args.side order_args.size
              order_args.price (get_round_config options.tick_size)).2.2
            expiration := decRepr order_args.expiration
            nonce := decRepr order_args.nonce
            fee_rate_bps := intRepr order_args.fee_rate_bps
            side := (get_order_amounts order_args.side order_args.size order_args.price
              (get_round_config options.tick_size)).1
            signature_type := b.sig_type
            signature := o.signature } := by
  unfold create_order at h
  split at h
  · exact absurd h (by simp)
  next cfg hcfg =>
    split at h
    · exact absurd h (by simp)
    next tid htid =>
      simp only [] at h
      split at h
      next e hsig => exact absurd h (by simp)
      next s hsig =>
        injection h with h
        subst h
        exact ⟨cfg, tid, hcfg, htid, hsig, rfl⟩

theorem create_market_order_ok_elim {ext : Externals} {b : OrderBuilderM} {salt : Nat}
    {order_args : MarketOrderArgs} {options : CreateOrderOptions} {o : SignedOrder}
    (h : create_market_order ext b salt order_args options = .ok o) :
    ∃ cfg tid,
      get_contract_config b.signer.chainId options.neg_risk = some cfg ∧
      parseU256 order_args.token_id = some tid ∧
      ext.sign (ext.keccak ([0x19, 0x01]
          ++ domain_separator ext.keccak cfg.exchange b.signer.chainId
          ++ order_struct_hash ext.keccak salt b.funder b.signer.address
              ((parseAddress order_args.taker).getD 0) tid
              (get_market_order_amounts order_args.side order_args.amount order_args.price
                (get_round_config options.tick_size)).2.1
              (get_market_order_amounts order_args.side order_args.amount order_args.price
                (get_round_config options.tick_size)).2.2
              0 order_args.nonce (i32AsU64 order_args.fee_rate_bps)
              (get_market_order_amounts order_args.side order_args.amount order_args.price
                (get_round_config options.tick_size)).1
              b.sig_type)) = .ok o.signature ∧
      o = { salt := decRepr salt
            maker := ext.toChecksum b.funder
            signer := ext.toChecksum b.signer.address
            taker := order_args.taker
            token_id := order_args.token_id
            maker_amount := decRepr (get_market_order_amounts order_args.side
              order_args.amount order_args.price (get_round_config options.tick_size)).2.1
            taker_amount := decRepr (get_market_order_amounts order_args.side
              order_args.amount order_args.price (get_round_config options.tick_size)).2.2
            expiration := "0"
            nonce := decRepr order_args.nonce
            fee_rate_bps := intRepr order_args.fee_rate_bps
            side := (get_market_order_amounts order_args.side order_args.amount
              order_args.price (get_round_config options.tick_size)).1
            signature_type := b.sig_type
            signature := o.signature } := by
  unfold create_market_order at h
  split at h
  · exact absurd h (by simp)
  next cfg hcfg =>
    split at h
    · exact absurd h (by simp)
    next tid htid =>
      simp only [] at h
      split at h
      next e hsig => exact absurd h (by simp)
      next s hsig =>
        injection h with h
        subst h
        exact ⟨cfg, tid, hcfg, htid, hsig, rfl⟩

theorem create_order_ok_intro {ext : Externals} {b : OrderBuilderM} {salt : Nat}
    {order_args : OrderArgs} {options : CreateOrderOptions} {cfg : ContractConfig}
    {tid : Nat} {s : String}
    (hcfg : get_contract_config b.signer.chainId options.neg_risk = some cfg)
    (htid : parseU256 order_args.token_id = some tid)
    (hsig : ext.sign (ext.keccak ([0x19, 0x01]
        ++ domain_separator ext.keccak cfg.exchange b.signer.chainId
        ++ order_struct_hash ext.keccak salt b.funder b.signer.address
            ((parseAddress order_args.taker).getD 0) tid
            (get_order_amounts order_args.side order_args.size order_args.price
              (get_round_config options.tick_size)).2.1
            (get_order_amounts order_args.side order_args.size order_args.price
              (get_round_config options.tick_size)).2.2
            order_args.expiration order_args.nonce (i32AsU64 order_args.fee_rate_bps)
            (get_order_amounts order_args.side order_args.size order_args.price
              (get_round_config options.tick_size)).1
            b.sig_type)) = .ok s) :
    create_order ext b salt order_args options
      = .ok { salt := decRepr salt
              maker := ext.toChecksum b.funder
              signer := ext.toChecksum b.signer.address
              taker := order_args.taker
              token_id := order_args.token_id
              maker_amount := decRepr (get_order_amounts order_args.side order_args.size
                order_args.price (get_round_config options.tick_size)).2.1
              taker_amount := decRepr (get_order_amounts order_args.side order_args.size
                order_args.price (get_round_config options.tick_size)).2.2
              expiration := decRepr order_args.expiration
              nonce := decRepr order_args.nonce
              fee_rate_bps := intRepr order_args.fee_rate_bps
              side := (get_order_amounts order_args.side order_args.size order_args.price
                (get_round_config options.tick_size)).1
              signature_type := b.sig_type
              signature := s } := by
  unfold create_order
  simp only [hcfg, htid, hsig]

theorem create_order_config_error {ext : Externals} {b : OrderBuilderM} {salt : Nat}
    {order_args : OrderArgs} {options : CreateOrderOptions}
    (hcfg : get_contract_config b.signer.chainId options.neg_risk = none) :
    create_order ext b salt order_args options
      = .error (.invalidParameter "invalid chain_id") := by
  unfold create_order
  simp only [hcfg]

theorem create_market_order_config_error {ext : Externals} {b : OrderBuilderM} {salt : Nat}
    {order_args : MarketOrderArgs} {options : CreateOrderOptions}
    (hcfg : get_contract_config b.signer.chainId options.neg_risk = none) :
    create_market_order ext b salt order_args options
      = .error (.invalidParameter "invalid chain_id") := by
  unfold create_market_order
  simp only [hcfg]

theorem get_order_amounts_side_cases (side : Side) (size price : ℚ) (rc : RoundConfig) :
    (get_order_amounts side size price rc).1 = 0 ∨ (get_order_amounts side size price rc).1 = 1 := by
  cases side
  · exact Or.inl rfl
  · exact Or.inr rfl

theorem get_market_order_amounts_side_cases (side : Side) (amount price : ℚ)
    (rc : RoundConfig) :
    (get_market_order_amounts side amount price rc).1 = 0
      ∨ (get_market_order_amounts side amount price rc).1 = 1 := by
  cases side
  · exact Or.inl rfl
  · exact Or.inr rfl

/-- Claim C1: For tick size 0.01, the limit-order amount computation reproduces
the spec's vectors exactly: BUY price 0.24 size 15 gives maker 3,600,000 and
taker 15,000,000; SELL with the same inputs gives the amounts swapped; BUY
price 0.58 size 18233.33 gives maker 10,575,331,400 and taker 18,233,330,000,
whose ratio is exactly 0.58 (= 58/100). -/
theorem C1_limit_order_amount_vectors :
    get_order_amounts .buy (fpOfDec 15 0) (fpOfDec 24 2) (get_round_config .size0_01)
        = (0, 3600000, 15000000) ∧
    get_order_amounts .sell (fpOfDec 15 0) (fpOfDec 24 2) (get_round_config .size0_01)
        = (1, 15000000, 3600000) ∧
    get_order_amounts .buy (fpOfDec 1823333 2) (fpOfDec 58 2) (get_round_config .size0_01)
        = (0, 10575331400, 18233330000) ∧
    ((get_order_amounts .buy (fpOfDec 1823333 2) (fpOfDec 58 2)
        (get_round_config .size0_01)).2.1 : ℚ)
      / ((get_order_amounts .buy (fpOfDec 1823333 2) (fpOfDec 58 2)
        (get_round_config .size0_01)).2.2 : ℚ) = 58 / 100 := by
  have h3 : get_order_amounts .buy (fpOfDec 1823333 2) (fpOfDec 58 2)
      (get_round_config .size0_01) = (0, 10575331400, 18233330000) := by decide
  refine ⟨by decide, by decide, h3, ?_⟩
  rw [h3]
  norm_num

/-- Claim C2: For every side, size, price and rounding config, the limit-order
amount computation of the code equals the spec's §4.1 algorithm (price rounded
half-away-from-zero to `price_decimals`; BUY: taker = floored size, maker =
taker × rounded price; SELL: maker = floored size, taker = maker × rounded
price; the two-stage over-precision correction — round up to
`amount_decimals+4`, then floor to `amount_decimals` if still over-precise;
finally scale by 10^6 and round to nearest), both read over the binary64
arithmetic the reference mandates. -/
theorem C2_limit_order_algorithm_follows_spec (side : Side) (size price : ℚ)
    (round_config : RoundConfig) :
    spec_get_order_amounts side size price round_config
      = get_order_amounts side size price round_config := by
  cases side <;> rfl

/-- Claim C3: For every base64 secret, timestamp, method, path and optional
body, `build_hmac_signature` returns
`base64url(HMAC-SHA256(base64_decode(secret), decimal(timestamp) || method ||
path || body-or-empty))` with no separators between the fields; in particular
the spec's test vector yields `"ZwAdJKvoYRlEKDkNMwd5BuwNNtg93kNaR_oU2HrfVvc="`. -/
theorem C3_hmac_signature_construction :
    (∀ (secret : String) (timestamp : Nat) (method request_path : String)
        (body : Option String) (key : List Nat),
      base64UrlDecode secret = some key →
      build_hmac_signature secret timestamp method request_path body
        = some (base64UrlEncode (hmacSha256 key
            (utf8Bytes (decRepr timestamp ++ method ++ request_path ++ body.getD ""))))) ∧
    build_hmac_signature "AAAAAAAAAAAAAAAAAAAAAAAAAAAAAAAAAAAAAAAAAAA=" 1000000
        "test-sign" "/orders" (some "\x7b\"hash\": \"0x123\"\x7d")
      = some "ZwAdJKvoYRlEKDkNMwd5BuwNNtg93kNaR_oU2HrfVvc=" := by
  constructor
  · intro secret timestamp method request_path body key hdec
    unfold build_hmac_signature
    rw [hdec]
    cases body <;> rfl
  · decide

/-- Witness for **C3**: the universal part applied at the spec's vector (the
secret decodes to 32 zero bytes). -/
theorem C3_hmac_signature_construction_witness :
    base64UrlDecode "AAAAAAAAAAAAAAAAAAAAAAAAAAAAAAAAAAAAAAAAAAA="
        = some (List.replicate 32 0) ∧
    build_hmac_signature "AAAAAAAAAAAAAAAAAAAAAAAAAAAAAAAAAAAAAAAAAAA=" 1000000
        "test-sign" "/orders" (some "\x7b\"hash\": \"0x123\"\x7d")
      = some (base64UrlEncode (hmacSha256 (List.replicate 32 0)
          (utf8Bytes (decRepr 1000000 ++ "test-sign" ++ "/orders"
            ++ (some "\x7b\"hash\": \"0x123\"\x7d").getD "")))) :=
  ⟨by decide,
   C3_hmac_signature_construction.1 "AAAAAAAAAAAAAAAAAAAAAAAAAAAAAAAAAAAAAAAAAAA="
     1000000 "test-sign" "/orders" (some "\x7b\"hash\": \"0x123\"\x7d")
     (List.replicate 32 0) (by decide)⟩

/-- Claim C10: `build_hmac_signature` is total only when the secret is valid
URL-safe base64: every decodable secret yields a signature, while a
non-base64 secret hits the `.expect` and panics (modelled as `none`) instead
of returning a typed error. -/
theorem C10_hmac_panics_on_invalid_secret :
    (∀ (secret : String) (timestamp : Nat) (method request_path : String)
        (body : Option String) (key : List Nat),
      base64UrlDecode secret = some key →
      (build_hmac_signature secret timestamp method request_path body).isSome = true) ∧
    build_hmac_signature "not base64!" 1000000 "GET" "/orders" none = none := by
  constructor
  · intro secret timestamp method request_path body key hdec
    unfold build_hmac_signature
    rw [hdec]
    rfl
  · decide

/-- Witness for **C10**: the universal part applied at a decodable secret. -/
theorem C10_hmac_panics_on_invalid_secret_witness :
    base64UrlDecode "AAAA" = some [0, 0, 0] ∧
    (build_hmac_signature "AAAA" 1 "GET" "/orders" none).isSome = true :=
  ⟨by decide,
   C10_hmac_panics_on_invalid_secret.1 "AAAA" 1 "GET" "/orders" none [0, 0, 0] (by decide)⟩

/-- Claim C8: In the auth-challenge struct hash the timestamp field enters as
the Keccak-256 hash of its decimal string (never as a raw 32-byte integer:
the two encodings disagree), and level-1 headers built without a nonce use
nonce 0. -/
theorem C8_auth_challenge_timestamp_and_nonce :
    (∀ (keccak : List Nat → List Nat) (address timestamp nonce : Nat),
      clob_struct_hash keccak address timestamp nonce
        = keccak (keccak (utf8Bytes "ClobAuth(address address,string timestamp,uint256 nonce,string message)")
            ++ be32 address
            ++ keccak (utf8Bytes (decRepr timestamp))
            ++ be32 nonce
            ++ keccak (utf8Bytes MSG_TO_SIGN))) ∧
    clob_struct_hash (fun l => l) 5 1000000 0
      ≠ spec_clob_struct_hash_rawint (fun l => l) 5 1000000 0 ∧
    (∀ (ext : Externals) (signer : SignerM) (timestamp : Nat),
      create_level_1_headers ext signer timestamp none
        = create_level_1_headers ext signer timestamp (some 0)) :=
  ⟨fun _ _ _ _ => rfl, by decide, fun _ _ _ => rfl⟩

/-- Claim C5: Every (chain id, neg-risk) pair other than (137, false) and
(137, true) resolves to no contract config, and order creation with such a
pair fails with the typed configuration error (`InvalidParameter
"invalid chain_id"`) — no default exchange address is substituted; the two
supported pairs resolve to their static configs. -/
theorem C5_contract_registry_lookup (chain_id : Nat) (neg_risk : Bool)
    (h1 : (chain_id, neg_risk) ≠ (137, false)) (h2 : (chain_id, neg_risk) ≠ (137, true)) :
    get_contract_config chain_id neg_risk = none ∧
    get_contract_config 137 false = some POLYGON_CONFIG ∧
    get_contract_config 137 true = some POLYGON_NEG_RISK_CONFIG ∧
    (∀ (ext : Externals) (b : OrderBuilderM) (salt : Nat) (order_args : OrderArgs)
        (margs : MarketOrderArgs) (options : CreateOrderOptions),
      b.signer.chainId = chain_id → options.neg_risk = neg_risk →
      create_order ext b salt order_args options
          = .error (.invalidParameter "invalid chain_id") ∧
      create_market_order ext b salt margs options
          = .error (.invalidParameter "invalid chain_id")) := by
  have hnone : get_contract_config chain_id neg_risk = none := by
    unfold get_contract_config
    split
    · exact absurd rfl h1
    · exact absurd rfl h2
    · rfl
  refine ⟨hnone, rfl, rfl, ?_⟩
  intro ext b salt order_args margs options hb ho
  have hn : get_contract_config b.signer.chainId options.neg_risk = none := by
    rw [hb, ho]; exact hnone
  exact ⟨create_order_config_error hn, create_market_order_config_error hn⟩

/-- Claim C4: Every market order carries expiration 0: the serialized record's
expiration field is the string `"0"`, and the signature was produced over the
digest whose struct hash encodes expiration 0 — independently of any
caller-supplied value (`MarketOrderArgs` has no expiration field at all, so
the quantification over `order_args` covers every caller input). -/
theorem C4_market_order_expiration_forced_zero (ext : Externals) (b : OrderBuilderM)
    (salt : Nat) (order_args : MarketOrderArgs) (options : CreateOrderOptions)
    (o : SignedOrder)
    (h : create_market_order ext b salt order_args options = .ok o) :
    o.expiration = "0" ∧
    ∃ cfg tid,
      get_contract_config b.signer.chainId options.neg_risk = some cfg ∧
      parseU256 order_args.token_id = some tid ∧
      ext.sign (ext.keccak ([0x19, 0x01]
          ++ domain_separator ext.keccak cfg.exchange b.signer.chainId
          ++ order_struct_hash ext.keccak salt b.funder b.signer.address
              ((parseAddress order_args.taker).getD 0) tid
              (get_market_order_amounts order_args.side order_args.amount order_args.price
                (get_round_config options.tick_size)).2.1
              (get_market_order_amounts order_args.side order_args.amount order_args.price
                (get_round_config options.tick_size)).2.2
              0 order_args.nonce (i32AsU64 order_args.fee_rate_bps)
              (get_market_order_amounts order_args.side order_args.amount order_args.price
                (get_round_config options.tick_size)).1
              b.sig_type)) = .ok o.signature := by
  obtain ⟨cfg, tid, hcfg, htid, hsig, ho⟩ := create_market_order_ok_elim h
  refine ⟨?_, cfg, tid, hcfg, htid, hsig⟩
  rw [ho]

/-- Claim C9: Every `SignedOrder` produced by order creation serializes with
`salt` as a plain JSON integer while `makerAmount`, `takerAmount`,
`expiration`, `nonce` and `feeRateBps` are decimal strings, and `side` is the
string `"BUY"` for 0 and `"SELL"` for 1 (the only two values produced), even
though `side` is a `u8` in the hashed struct. -/
theorem C9_signed_order_wire_encoding (ext : Externals) (b : OrderBuilderM)
    (salt : Nat) (order_args : OrderArgs) (options : CreateOrderOptions)
    (o : SignedOrder) (hsalt : salt < 2 ^ 64)
    (h : create_order ext b salt order_args options = .ok o) :
    ((o.side = 0 ∨ o.side = 1) ∧
     signedOrderJson o
       = [("salt", .num salt),
          ("maker", .str o.maker),
          ("signer", .str o.signer),
          ("taker", .str o.taker),
          ("tokenId", .str o.token_id),
          ("makerAmount", .str (decRepr (get_order_amounts order_args.side order_args.size
            order_args.price (get_round_config options.tick_size)).2.1)),
          ("takerAmount", .str (decRepr (get_order_amounts order_args.side order_args.size
            order_args.price (get_round_config options.tick_size)).2.2)),
          ("expiration", .str (decRepr order_args.expiration)),
          ("nonce", .str (decRepr order_args.nonce)),
          ("feeRateBps", .str (intRepr order_args.fee_rate_bps)),
          ("side", .str (if o.side = 0 then "BUY" else "SELL")),
          ("signatureType", .num b.sig_type),
          ("signature", .str o.signature)]) ∧
    (∀ (margs : MarketOrderArgs) (o' : SignedOrder),
      create_market_order ext b salt margs options = .ok o' →
      (o'.side = 0 ∨ o'.side = 1) ∧
      signedOrderJson o'
        = [("salt", .num salt),
           ("maker", .str o'.maker),
           ("signer", .str o'.signer),
           ("taker", .str o'.taker),
           ("tokenId", .str o'.token_id),
           ("makerAmount", .str (decRepr (get_market_order_amounts margs.side margs.amount
             margs.price (get_round_config options.tick_size)).2.1)),
           ("takerAmount", .str (decRepr (get_market_order_amounts margs.side margs.amount
             margs.price (get_round_config options.tick_size)).2.2)),
           ("expiration", .str "0"),
           ("nonce", .str (decRepr margs.nonce)),
           ("feeRateBps", .str (intRepr margs.fee_rate_bps)),
           ("side", .str (if o'.side = 0 then "BUY" else "SELL")),
           ("signatureType", .num b.sig_type),
           ("signature", .str o'.signature)]) := by
  have hsalt128 : salt < 2 ^ 128 := lt_trans hsalt (by norm_num)
  have hs : serialize_salt_as_int (decRepr salt) = .num salt := by
    unfold serialize_salt_as_int
    rw [parseU128_decRepr salt hsalt128]
  constructor
  · obtain ⟨cfg, tid, hcfg, htid, hsig, ho⟩ := create_order_ok_elim h
    have hside := get_order_amounts_side_cases order_args.side order_args.size
      order_args.price (get_round_config options.tick_size)
    rw [ho]
    constructor
    · exact hside
    · unfold signedOrderJson
      rcases hside with h0 | h1
      · simp [serialize_side, hs, h0]
      · simp [serialize_side, hs, h1]
  · intro margs o' h'
    obtain ⟨cfg, tid, hcfg, htid, hsig, ho⟩ := create_market_order_ok_elim h'
    have hside := get_market_order_amounts_side_cases margs.side margs.amount
      margs.price (get_round_config options.tick_size)
    rw [ho]
    constructor
    · exact hside
    · unfold signedOrderJson
      rcases hside with h0 | h1
      · simp [serialize_side, hs, h0]
      · simp [serialize_side, hs, h1]

/-- Counterexample to **C7** as stated: `"not-an-address"` does not parse as
an address, yet `create_order` does not surface any typed failure — it
succeeds, echoing the malformed taker string in the record
(`taker.parse().unwrap_or_default()` silently falls back to the zero
address). -/
theorem C7_counterexample_malformed_taker_accepted :
    parseAddress "not-an-address" = none ∧
    create_order
        { keccak := fun _ => [], toChecksum := fun _ => "0xM", sign := fun _ => .ok "0xSIG" }
        { signer := { address := 2, chainId := 137 }, sig_type := 0, funder := 3 }
        5
        { token_id := "123", price := fpOfDec 24 2, size := fpOfDec 15 0, side := .buy,
          fee_rate_bps := 0, nonce := 0, expiration := 0, taker := "not-an-address" }
        { tick_size := .size0_01, neg_risk := false }
      = .ok { salt := "5", maker := "0xM", signer := "0xM", taker := "not-an-address",
              token_id := "123", maker_amount := "3600000", taker_amount := "15000000",
              expiration := "0", nonce := "0", fee_rate_bps := "0", side := 0,
              signature_type := 0, signature := "0xSIG" } := by
  constructor
  · decide
  · decide

/-- Claim C7, amended: a taker string that does not parse as an address is NOT
rejected: `create_order` substitutes the default (zero) address into the
hashed struct, succeeds whenever the remaining pipeline does, and echoes the
original malformed string in the serialized record. -/
theorem C7_malformed_taker_defaults_to_zero (ext : Externals) (b : OrderBuilderM)
    (salt : Nat) (order_args : OrderArgs) (options : CreateOrderOptions) (tid : Nat)
    (htaker : parseAddress order_args.taker = none)
    (hchain : b.signer.chainId = 137)
    (htid : parseU256 order_args.token_id = some tid)
    (hsign : ∀ d, ∃ s, ext.sign d = Except.ok s) :
    ∃ cfg o,
      get_contract_config b.signer.chainId options.neg_risk = some cfg ∧
      create_order ext b salt order_args options = .ok o ∧
      o.taker = order_args.taker ∧
      ext.sign (ext.keccak ([0x19, 0x01]
          ++ domain_separator ext.keccak cfg.exchange b.signer.chainId
          ++ order_struct_hash ext.keccak salt b.funder b.signer.address
              0 tid
              (get_order_amounts order_args.side order_args.size order_args.price
                (get_round_config options.tick_size)).2.1
              (get_order_amounts order_args.side order_args.size order_args.price
                (get_round_config options.tick_size)).2.2
              order_args.expiration order_args.nonce (i32AsU64 order_args.fee_rate_bps)
              (get_order_amounts order_args.side order_args.size order_args.price
                (get_round_config options.tick_size)).1
              b.sig_type)) = .ok o.signature := by
  obtain ⟨cfg, hcfg⟩ : ∃ cfg,
      get_contract_config b.signer.chainId options.neg_risk = some cfg := by
    rw [hchain]
    cases options.neg_risk
    · exact ⟨_, rfl⟩
    · exact ⟨_, rfl⟩
  obtain ⟨s, hs⟩ := hsign _
  have h := @create_order_ok_intro ext b salt order_args options cfg tid s hcfg htid hs
  refine ⟨cfg, _, hcfg, h, rfl, ?_⟩
  rw [htaker] at hs
  exact hs

/-- Witness for **C4**: a concrete market order; its record carries
expiration `"0"`. -/
theorem C4_market_order_expiration_forced_zero_witness :
    create_market_order
        { keccak := fun _ => [], toChecksum := fun _ => "0xM", sign := fun _ => .ok "0xSIG" }
        { signer := { address := 2, chainId := 137 }, sig_type := 0, funder := 3 }
        9
        { token_id := "77", amount := fpOfDec 100 0, side := .buy, price := fpOfDec 5 1,
          fee_rate_bps := 0, nonce := 0,
          taker := "0x0000000000000000000000000000000000000000" }
        { tick_size := .size0_01, neg_risk := true }
      = .ok { salt := "9", maker := "0xM", signer := "0xM",
              taker := "0x0000000000000000000000000000000000000000", token_id := "77",
              maker_amount := "100000000", taker_amount := "200000000",
              expiration := "0", nonce := "0", fee_rate_bps := "0", side := 0,
              signature_type := 0, signature := "0xSIG" } ∧
    SignedOrder.expiration
      { salt := "9", maker := "0xM", signer := "0xM",
        taker := "0x0000000000000000000000000000000000000000", token_id := "77",
        maker_amount := "100000000", taker_amount := "200000000",
        expiration := "0", nonce := "0", fee_rate_bps := "0", side := 0,
        signature_type := 0, signature := "0xSIG" } = "0" :=
  ⟨by decide,
   (C4_market_order_expiration_forced_zero
     { keccak := fun _ => [], toChecksum := fun _ => "0xM", sign := fun _ => .ok "0xSIG" }
     { signer := { address := 2, chainId := 137 }, sig_type := 0, funder := 3 }
     9
     { token_id := "77", amount := fpOfDec 100 0, side := .buy, price := fpOfDec 5 1,
       fee_rate_bps := 0, nonce := 0,
       taker := "0x0000000000000000000000000000000000000000" }
     { tick_size := .size0_01, neg_risk := true }
     _ (by decide)).1⟩

/-- Witness for **C5**: chain id 1 resolves to no config and order creation
on it fails with the configuration error. -/
theorem C5_contract_registry_lookup_witness :
    get_contract_config 1 false = none ∧
    create_order
        { keccak := fun _ => [], toChecksum := fun _ => "0xM", sign := fun _ => .ok "0xSIG" }
        { signer := { address := 2, chainId := 1 }, sig_type := 0, funder := 3 }
        3
        { token_id := "123", price := fpOfDec 24 2, size := fpOfDec 15 0, side := .buy,
          fee_rate_bps := 0, nonce := 0, expiration := 0,
          taker := "0x0000000000000000000000000000000000000000" }
        { tick_size := .size0_01, neg_risk := false }
      = .error (.invalidParameter "invalid chain_id") := by
  have h := C5_contract_registry_lookup 1 false (by decide) (by decide)
  exact ⟨h.1,
    (h.2.2.2
      { keccak := fun _ => [], toChecksum := fun _ => "0xM", sign := fun _ => .ok "0xSIG" }
      { signer := { address := 2, chainId := 1 }, sig_type := 0, funder := 3 }
      3
      { token_id := "123", price := fpOfDec 24 2, size := fpOfDec 15 0, side := .buy,
        fee_rate_bps := 0, nonce := 0, expiration := 0,
        taker := "0x0000000000000000000000000000000000000000" }
      { token_id := "77", amount := fpOfDec 100 0, side := .buy, price := fpOfDec 5 1,
        fee_rate_bps := 0, nonce := 0,
        taker := "0x0000000000000000000000000000000000000000" }
      { tick_size := .size0_01, neg_risk := false }
      rfl rfl).1⟩

/-- Witness for the amended **C7**: taker `"zzz"` does not parse, yet the
order is created and the record echoes `"zzz"`. -/
theorem C7_malformed_taker_defaults_to_zero_witness :
    parseAddress "zzz" = none ∧
    ∃ o, create_order
        { keccak := fun _ => [], toChecksum := fun _ => "0xM", sign := fun _ => .ok "0xSIG" }
        { signer := { address := 2, chainId := 137 }, sig_type := 0, funder := 3 }
        7
        { token_id := "123", price := fpOfDec 24 2, size := fpOfDec 15 0, side := .buy,
          fee_rate_bps := 0, nonce := 0, expiration := 0, taker := "zzz" }
        { tick_size := .size0_01, neg_risk := false }
      = .ok o ∧ o.taker = "zzz" := by
  obtain ⟨cfg, o, hcfg, hok, ht, hsig⟩ := C7_malformed_taker_defaults_to_zero
    { keccak := fun _ => [], toChecksum := fun _ => "0xM", sign := fun _ => .ok "0xSIG" }
    { signer := { address := 2, chainId := 137 }, sig_type := 0, funder := 3 }
    7
    { token_id := "123", price := fpOfDec 24 2, size := fpOfDec 15 0, side := .buy,
      fee_rate_bps := 0, nonce := 0, expiration := 0, taker := "zzz" }
    { tick_size := .size0_01, neg_risk := false }
    123 (by decide) rfl (by decide) (fun _ => ⟨"0xSIG", rfl⟩)
  exact ⟨by decide, o, hok, ht⟩

/-- Witness for **C9**: a concrete SELL order; the serialization carries the
salt as the number 6, the amounts as decimal strings, and side `"SELL"`. -/
theorem C9_signed_order_wire_encoding_witness :
    (SignedOrder.side
       { salt := "6", maker := "0xM", signer := "0xM",
         taker := "0x0000000000000000000000000000000000000000", token_id := "123",
         maker_amount := "15000000", taker_amount := "3600000", expiration := "0",
         nonce := "0", fee_rate_bps := "0", side := 1, signature_type := 0,
         signature := "0xSIG" } = 0 ∨
     SignedOrder.side
       { salt := "6", maker := "0xM", signer := "0xM",
         taker := "0x0000000000000000000000000000000000000000", token_id := "123",
         maker_amount := "15000000", taker_amount := "3600000", expiration := "0",
         nonce := "0", fee_rate_bps := "0", side := 1, signature_type := 0,
         signature := "0xSIG" } = 1) ∧
    signedOrderJson
        { salt := "6", maker := "0xM", signer := "0xM",
          taker := "0x0000000000000000000000000000000000000000", token_id := "123",
          maker_amount := "15000000", taker_amount := "3600000", expiration := "0",
          nonce := "0", fee_rate_bps := "0", side := 1, signature_type := 0,
          signature := "0xSIG" }
      = [("salt", .num 6), ("maker", .str "0xM"), ("signer", .str "0xM"),
         ("taker", .str "0x0000000000000000000000000000000000000000"),
         ("tokenId", .str "123"), ("makerAmount", .str "15000000"),
         ("takerAmount", .str "3600000"), ("expiration", .str "0"),
         ("nonce", .str "0"), ("feeRateBps", .str "0"), ("side", .str "SELL"),
         ("signatureType", .num 0), ("signature", .str "0xSIG")] := by
  have h := (C9_signed_order_wire_encoding
    { keccak := fun _ => [], toChecksum := fun _ => "0xM", sign := fun _ => .ok "0xSIG" }
    { signer := { address := 2, chainId := 137 }, sig_type := 0, funder := 3 }
    6
    { token_id := "123", price := fpOfDec 24 2, size := fpOfDec 15 0, side := .sell,
      fee_rate_bps := 0, nonce := 0, expiration := 0,
      taker := "0x0000000000000000000000000000000000000000" }
    { tick_size := .size0_01, neg_risk := false }
    { salt := "6", maker := "0xM", signer := "0xM",
      taker := "0x0000000000000000000000000000000000000000", token_id := "123",
      maker_amount := "15000000", taker_amount := "3600000", expiration := "0",
      nonce := "0", fee_rate_bps := "0", side := 1, signature_type := 0,
      signature := "0xSIG" }
    (by decide) (by decide)).1
  exact ⟨h.1, h.2.trans (by decide)⟩
